import Mathlib

/-!
Formal model of the ZynBudget derived financial-aggregation core.

The Python source (a Django application) is shallowly embedded:

* fixed-point `Decimal` monetary fields are modelled as exact rationals `ℚ`;
* `date` / `datetime` values are modelled as integers (a point on a time line,
  only ordering and equality are ever used by the code under study);
* nullable columns (`null=True`) are modelled as `Option`;
* Python string truthiness (`if field:`) is modelled explicitly.

Each definition carries a reference to the source location it embeds.
-/

namespace ZynBudget

/-- Python truthiness of a string: truthy iff non-empty. -/
def truthy (s : String) : Bool := !s.isEmpty

/-- Python truthiness of a nullable string field: `None` and `""` are both falsy. -/
def optTruthy : Option String → Bool
  | none => false
  | some s => truthy s

/-- Python `str.strip()`: remove leading and trailing whitespace.  Modelled
directly on the character list of the string. -/
def pyStrip (s : String) : String :=
  String.mk (((s.data.dropWhile Char.isWhitespace).reverse.dropWhile
    Char.isWhitespace).reverse)

/-- The `User` model, `src/apps/users/models.py` (class `User(AbstractUser)`).
Only the columns read by the functions under study are listed with their
source defaults; `phone_number`, `profile_picture`, `premium_expires_at`,
`date_of_birth` are `null=True` in the source, hence `Option` here. -/
structure User where
  username : String
  email : String
  first_name : String := ""
  last_name : String := ""
  phone_number : Option String := none
  profile_picture : Option String := none
  currency : String := "USD"
  timezone : String := "UTC"
  is_email_verified : Bool := false
  is_premium : Bool := false
  premium_expires_at : Option Int := none
  date_of_birth : Option Int := none
  bio : String := ""
deriving DecidableEq

/-- `User.get_full_name`, `src/apps/users/models.py` lines 151-154:
`full_name = f"{self.first_name} {self.last_name}"` followed by
`return full_name.strip() or self.username` (Python `or` on strings:
the stripped name if non-empty, else the username). -/
def get_full_name (u : User) : String :=
  let full_name := pyStrip (u.first_name ++ " " ++ u.last_name)
  if full_name = "" then u.username else full_name

/-- `User.get_short_name`, `src/apps/users/models.py` lines 156-158. -/
def get_short_name (u : User) : String :=
  if u.first_name = "" then u.username else u.first_name

/-- `User.is_premium_active`, `src/apps/users/models.py` lines 160-168:
returns `False` if `is_premium` is unset, `True` if `premium_expires_at`
is `None`, else `premium_expires_at > timezone.now()`.  The wall clock
`now` is passed explicitly (the property re-reads it on every evaluation). -/
def is_premium_active (u : User) (now : Int) : Bool :=
  if !u.is_premium then false
  else
    match u.premium_expires_at with
    | none => true
    | some t => decide (t > now)

/-- The list of Python truth values of the seven profile fields listed in
`UserProfileTemplateView.calculate_profile_completion`,
`src/apps/users/views.py` lines 286-294, in source order. -/
def profile_field_values (u : User) : List Bool :=
  [truthy u.first_name,
   truthy u.last_name,
   truthy u.email,
   optTruthy u.phone_number,
   optTruthy u.profile_picture,
   u.date_of_birth.isSome,
   truthy u.bio]

/-- `filled_fields = sum(1 for field in fields if field)`,
`src/apps/users/views.py` line 295. -/
def filled_fields (u : User) : Nat := (profile_field_values u).count true

/-- `total_fields = len(fields)`, `src/apps/users/views.py` line 296. -/
def total_fields (u : User) : Nat := (profile_field_values u).length

/-- Python `round(x, 2)`: round to 2 decimal places.  Modelled as rounding
`x * 100` to the nearest integer.  (Python rounds ties to even; Mathlib
`round` rounds ties up.  The two differ only on exact `.005` ties, which
none of the values produced by the code under study attain.) -/
def round2 (q : ℚ) : ℚ := (round (q * 100) : ℤ) / 100

/-- `UserProfileTemplateView.calculate_profile_completion`,
`src/apps/users/views.py` lines 285-297:
`round((filled_fields / total_fields) * 100, 2)`. -/
def calculate_profile_completion (u : User) : ℚ :=
  round2 ((filled_fields u : ℚ) / (total_fields u : ℚ) * 100)

/-- The `RSABalance` model, `src/apps/budgets/models.py` lines 282-330.
`rsa_fund` is the foreign key to the parent `RSAFund` row, modelled by its id. -/
structure RSABalance where
  rsa_fund : Nat
  balance_date : Int
  total_employee_contributions : ℚ := 0
  total_employer_contributions : ℚ := 0
  total_voluntary_contributions : ℚ := 0
  total_units : ℚ := 0
  nav_per_unit : ℚ := 0
  market_value : ℚ := 0
  investment_returns : ℚ := 0
  cumulative_returns : ℚ := 0
  management_fees_paid : ℚ := 0
  notes : String := ""
deriving DecidableEq

/-- `RSABalance.total_contributions`, `src/apps/budgets/models.py` lines 324-330. -/
def RSABalance.total_contributions (b : RSABalance) : ℚ :=
  b.total_employee_contributions +
  b.total_employer_contributions +
  b.total_voluntary_contributions

/-- The uniqueness key of an `RSABalance` row:
`unique_together = ['rsa_fund', 'balance_date']`,
`src/apps/budgets/models.py` line 317. -/
def RSABalance.key (b : RSABalance) : Nat × Int := (b.rsa_fund, b.balance_date)

/-- The `ManagedFundBalance` model, `src/apps/budgets/models.py` lines 484-542.
`managed_fund` is the foreign key to the parent `ManagedFund` row. -/
structure ManagedFundBalance where
  managed_fund : Nat
  balance_date : Int
  total_units : ℚ := 0
  nav_per_unit : ℚ := 0
  market_value : ℚ := 0
  total_invested : ℚ := 0
  total_fees_paid : ℚ := 0
  unrealized_gain_loss : ℚ := 0
  realized_gain_loss : ℚ := 0
  total_dividends_received : ℚ := 0
  actual_equity_percentage : ℚ := 0
  actual_bonds_percentage : ℚ := 0
  actual_cash_percentage : ℚ := 0
  actual_alternatives_percentage : ℚ := 0
  notes : String := ""
deriving DecidableEq

/-- `ManagedFundBalance.total_return`, `src/apps/budgets/models.py` lines 534-536. -/
def ManagedFundBalance.total_return (b : ManagedFundBalance) : ℚ :=
  b.unrealized_gain_loss + b.realized_gain_loss + b.total_dividends_received

/-- `ManagedFundBalance.total_return_percentage`, `src/apps/budgets/models.py`
lines 538-542: `(total_return / total_invested) * 100` when
`total_invested > 0`, else `Decimal('0.00')`. -/
def ManagedFundBalance.total_return_percentage (b : ManagedFundBalance) : ℚ :=
  if b.total_invested > 0 then b.total_return / b.total_invested * 100 else 0

/-- The uniqueness key of a `ManagedFundBalance` row:
`unique_together = ['managed_fund', 'balance_date']`,
`src/apps/budgets/models.py` line 527. -/
def ManagedFundBalance.key (b : ManagedFundBalance) : Nat × Int :=
  (b.managed_fund, b.balance_date)

/-- `FundPerformance.PERIOD_TYPE_CHOICES`, `src/apps/budgets/models.py`
lines 551-557. -/
inductive PeriodType
  | daily
  | weekly
  | monthly
  | quarterly
  | yearly
deriving DecidableEq

/-- The `FundPerformance` model, `src/apps/budgets/models.py` lines 549-632.
`fund` is the foreign key to the parent `Fund` row. -/
structure FundPerformance where
  fund : Nat
  period_type : PeriodType
  period_start_date : Int
  period_end_date : Int
  opening_nav : ℚ := 0
  closing_nav : ℚ := 0
  high_nav : ℚ := 0
  low_nav : ℚ := 0
  period_return_percentage : ℚ := 0
  ytd_return_percentage : ℚ := 0
  annualized_return_percentage : ℚ := 0
  volatility : ℚ := 0
  sharpe_ratio : ℚ := 0
  benchmark_return_percentage : ℚ := 0
  alpha : ℚ := 0
  notes : String := ""
deriving DecidableEq

/-- The uniqueness key of a `FundPerformance` row:
`unique_together = ['fund', 'period_type', 'period_start_date', 'period_end_date']`,
`src/apps/budgets/models.py` line 630. -/
def FundPerformance.key (p : FundPerformance) : Nat × PeriodType × Int × Int :=
  (p.fund, p.period_type, p.period_start_date, p.period_end_date)

/-- Error raised when a snapshot insert would violate a uniqueness key. -/
inductive InsertError
  | DuplicateSnapshot
deriving DecidableEq

/-- Modelled from the spec: the uniqueness enforcement for snapshot writes
lives in the relational store (driven by the `unique_together` declarations
in `src/apps/budgets/models.py`); no application-level insert code is in
the given source.  Per the spec, a write that would create a second row
with an existing key "must fail with a `DuplicateSnapshot` condition rather
than silently overwriting or duplicating, leaving the existing row
unchanged"; otherwise the row is appended. -/
def insertSnapshot {α κ : Type} [DecidableEq κ] (key : α → κ)
    (table : List α) (row : α) : Except InsertError (List α) :=
  if table.any (fun r => key r = key row) then
    Except.error InsertError.DuplicateSnapshot
  else
    Except.ok (table ++ [row])

/-- A table satisfies the snapshot-uniqueness invariant when no two rows
share a key. -/
def UniqueKeys {α κ : Type} (key : α → κ) (t : List α) : Prop :=
  List.Pairwise (fun a b => key a ≠ key b) t

/-- The duplicate-snapshot contract for one keyed table: an insert fails
with `DuplicateSnapshot` exactly when a row with the same key already
exists (and then the table is not changed, since no new table is
produced), and a successful insert appends the row and preserves the
uniqueness invariant. -/
def dupInsertSpec {α κ : Type} [DecidableEq κ] (key : α → κ) : Prop :=
  ∀ (t : List α) (r : α),
    (insertSnapshot key t r = Except.error InsertError.DuplicateSnapshot ↔
      ∃ p ∈ t, key p = key r) ∧
    ∀ s, insertSnapshot key t r = Except.ok s →
      s = t ++ [r] ∧ (UniqueKeys key t → UniqueKeys key s)

/-- `FundDataUpload.STATUS_CHOICES`, `src/apps/budgets/models.py`
lines 653-658: the four job statuses. -/
inductive UploadStatus
  | pending
  | processing
  | completed
  | failed
deriving DecidableEq

/-- The list of declared status choices, in source order. -/
def STATUS_CHOICES : List UploadStatus :=
  [UploadStatus.pending, UploadStatus.processing,
   UploadStatus.completed, UploadStatus.failed]

/-- `FundDataUpload.UPLOAD_TYPE_CHOICES`, `src/apps/budgets/models.py`
lines 644-651. -/
inductive UploadType
  | rsaContributions
  | rsaBalances
  | managedTransactions
  | managedBalances
  | fundPerformance
  | navUpdates
deriving DecidableEq

/-- The `FundDataUpload` model, `src/apps/budgets/models.py` lines 641-693.
The `status` column is declared `default='PENDING'` (line 676). -/
structure FundDataUpload where
  user : Nat
  fund : Option Nat := none
  upload_type : UploadType
  file_name : String := ""
  status : UploadStatus := UploadStatus.pending
  records_processed : Int := 0
  records_failed : Int := 0
  error_log : String := ""
  processed_at : Option Int := none
  notes : String := ""
deriving DecidableEq

/-- A freshly created upload job row: every column not supplied by the
caller takes its declared default, in particular `status = 'PENDING'`. -/
def newFundDataUpload (user : Nat) (ut : UploadType) (fname : String) :
    FundDataUpload :=
  { user := user, upload_type := ut, file_name := fname }

/-- Modelled from the spec: the parser driving the upload-status state
machine is absent from the given source; the spec fixes the transition
relation `pending → processing → \x7bcompleted, failed\x7d`, one-directional,
with no transition out of a terminal state and no retry-in-place. -/
def allowedTransition : UploadStatus → UploadStatus → Bool
  | UploadStatus.pending, UploadStatus.processing => true
  | UploadStatus.processing, UploadStatus.completed => true
  | UploadStatus.processing, UploadStatus.failed => true
  | _, _ => false

/-! ## Concrete instances used to evaluate the model on the spec's examples -/

/-- The managed-fund balance example of the spec:
unrealized 150.00, realized -20.00, dividends 10.00, invested 1000.00. -/
def exampleManagedBalance : ManagedFundBalance :=
  { managed_fund := 1, balance_date := 0, total_invested := 1000,
    unrealized_gain_loss := 150, realized_gain_loss := -20,
    total_dividends_received := 10 }

/-- A balance with zero invested capital but non-zero gain/loss components. -/
def zeroInvestedBalance : ManagedFundBalance :=
  { managed_fund := 1, balance_date := 0, total_invested := 0,
    unrealized_gain_loss := 150, realized_gain_loss := -20,
    total_dividends_received := 10 }

/-- A balance whose losses exceed its dividends (net loss on 1000 invested). -/
def lossBalance : ManagedFundBalance :=
  { managed_fund := 1, balance_date := 0, total_invested := 1000,
    unrealized_gain_loss := -250, realized_gain_loss := 30,
    total_dividends_received := 20 }

/-- A balance whose total return exceeds its invested capital. -/
def gainBalance : ManagedFundBalance :=
  { managed_fund := 1, balance_date := 0, total_invested := 100,
    unrealized_gain_loss := 140, realized_gain_loss := 5,
    total_dividends_received := 5 }

/-- The RSA balance example of the spec: employee 500, employer 600,
voluntary 100. -/
def exampleRSABalance : RSABalance :=
  { rsa_fund := 1, balance_date := 0, total_employee_contributions := 500,
    total_employer_contributions := 600, total_voluntary_contributions := 100 }

/-- An RSA balance row for fund 1 on day 10. -/
def rsaRowA : RSABalance := { rsa_fund := 1, balance_date := 10 }

/-- A second RSA balance row with the same (fund, date) key but different data. -/
def rsaRowB : RSABalance :=
  { rsa_fund := 1, balance_date := 10, total_employee_contributions := 5 }

/-- A premium user whose subscription expires at time 5. -/
def premiumUser : User :=
  { username := "p", email := "p@example.org", is_premium := true,
    premium_expires_at := some 5 }

/-- A user with exactly three of the seven scored profile fields filled. -/
def threeFieldUser : User :=
  { username := "ada", email := "ada@example.org", first_name := "Ada",
    last_name := "L" }

/-- A user with none of the seven scored profile fields filled. -/
def emptyProfileUser : User := { username := "nobody", email := "" }

/-- The empty-profile user after filling the first scored field. -/
def oneFieldUser : User := { username := "nobody", email := "", first_name := "A" }

/-- A user with both name parts set. -/
def adaUser : User :=
  { username := "edith", email := "e@example.org", first_name := "Ada",
    last_name := "Lovelace" }

/-- A user with a username but neither name part set. -/
def noNameUser : User := { username := "edith2", email := "e2@example.org" }

/-! ## Helper lemmas -/

/-- Setting a position currently holding `false` to `true` increases the
count of `true` entries by one. -/
theorem count_true_set (l : List Bool) (i : Nat) (h : l[i]? = some false) :
    (l.set i true).count true = l.count true + 1 := by
  induction l generalizing i with
  | nil => simp at h
  | cons a tl ih =>
    cases i with
    | zero =>
      simp at h
      subst h
      simp [List.count_cons]
    | succ j =>
      simp at h
      simp [List.count_cons, ih j h]
      omega

/-- Rounding to two decimal places is monotone. -/
theorem round2_mono {x y : ℚ} (h : x ≤ y) : round2 x ≤ round2 y := by
  unfold round2
  have h2 : round (x * 100) ≤ round (y * 100) := by
    rw [round_eq, round_eq]
    exact Int.floor_le_floor (by linarith)
  have h3 : ((round (x * 100) : ℤ) : ℚ) ≤ ((round (y * 100) : ℤ) : ℚ) := by
    exact_mod_cast h2
  linarith

/-- The duplicate-snapshot contract holds for any keyed table. -/
theorem insertSnapshot_dupSpec {α κ : Type} [DecidableEq κ] (key : α → κ) :
    dupInsertSpec key := by
  intro t r
  by_cases h : t.any (fun p => key p = key r)
  · have hex : ∃ p ∈ t, key p = key r := by
      simpa using h
    refine ⟨⟨fun _ => hex, fun _ => ?_⟩, fun s hs => ?_⟩
    · simp [insertSnapshot, h]
    · simp [insertSnapshot, h] at hs
  · have hnex : ¬ ∃ p ∈ t, key p = key r := by
      simpa using h
    refine ⟨⟨fun he => absurd ?_ hnex, fun he => absurd he hnex⟩, fun s hs => ?_⟩
    · simp [insertSnapshot, h] at he
    · simp [insertSnapshot, h] at hs
      subst hs
      refine ⟨rfl, fun hu => ?_⟩
      rw [UniqueKeys, List.pairwise_append]
      refine ⟨hu, by simp, ?_⟩
      intro a ha b hb
      simp at hb
      subst hb
      exact fun hk => hnex ⟨a, ha, hk⟩

/-! ## Claim theorems -/

/-- C1: for every managed-fund balance snapshot, `total_return_percentage`
equals `(total_return / total_invested) * 100` when `total_invested > 0`,
and equals exactly `0.00` when `total_invested` is not greater than `0`,
regardless of the gain/loss and dividend values; the division is guarded,
so no division by zero can occur. -/
theorem total_return_percentage_guarded (b : ManagedFundBalance) :
    (b.total_invested > 0 →
      b.total_return_percentage = b.total_return / b.total_invested * 100) ∧
    (¬ b.total_invested > 0 → b.total_return_percentage = 0) := by
  unfold ManagedFundBalance.total_return_percentage
  constructor <;> intro h <;> simp [h]

/-- Witness for C1: a snapshot with zero invested capital and non-zero
gain/loss values has return percentage exactly 0. -/
theorem total_return_percentage_guarded_witness :
    zeroInvestedBalance.total_return_percentage = 0 :=
  (total_return_percentage_guarded zeroInvestedBalance).2 (by simp [zeroInvestedBalance])

/-- C2: the premium-active predicate is false whenever the premium flag is
unset; true when the flag is set and no expiry is recorded; and with flag
set and expiry `T` it is true exactly when `now < T`, so it flips at `T`. -/
theorem is_premium_active_spec (u : User) (now : Int) :
    (u.is_premium = false → is_premium_active u now = false) ∧
    (u.is_premium = true → u.premium_expires_at = none →
      is_premium_active u now = true) ∧
    (∀ T : Int, u.is_premium = true → u.premium_expires_at = some T →
      (is_premium_active u now = true ↔ now < T)) := by
  refine ⟨fun h => by simp [is_premium_active, h],
    fun h h2 => by simp [is_premium_active, h, h2],
    fun T h h2 => by simp [is_premium_active, h, h2]⟩

/-- Witness for C2: for a premium user expiring at 5, the predicate at
time 3 agrees with `3 < 5`. -/
theorem is_premium_active_spec_witness :
    is_premium_active premiumUser 3 = true ↔ (3 : Int) < 5 :=
  (is_premium_active_spec premiumUser 3).2.2 5 rfl rfl

/-- C3: the profile-completion score equals the count of filled fields among
the seven scored fields divided by 7, times 100, rounded to two decimal
places; it always lies in [0, 100]; 0 of 7 gives 0.00, 7 of 7 gives
100.00, and 3 of 7 gives 42.86. -/
theorem profile_completion_spec (u : User) :
    calculate_profile_completion u =
      round2 ((filled_fields u : ℚ) / 7 * 100) ∧
    0 ≤ calculate_profile_completion u ∧
    calculate_profile_completion u ≤ 100 ∧
    (filled_fields u = 0 → calculate_profile_completion u = 0) ∧
    (filled_fields u = 7 → calculate_profile_completion u = 100) ∧
    (filled_fields u = 3 → calculate_profile_completion u = 42.86) := by
  have hk : filled_fields u ≤ 7 := List.count_le_length true (profile_field_values u)
  have h7 : total_fields u = 7 := rfl
  rw [calculate_profile_completion, h7]
  set k := filled_fields u with hkdef
  interval_cases k <;> norm_num [round2, round_eq]

/-- Witness for C3: a user with exactly three scored fields filled has
completion 42.86. -/
theorem profile_completion_spec_witness :
    calculate_profile_completion threeFieldUser = 42.86 :=
  (profile_completion_spec threeFieldUser).2.2.2.2.2 (by decide)

/-- C4: `total_return` is the exact decimal sum of the unrealized gain/loss,
realized gain/loss and dividends; on the spec's example (150, -20, 10 on
1000 invested) it is 140.00 with return percentage 14.00. -/
theorem total_return_sum_spec :
    (∀ b : ManagedFundBalance,
      b.total_return =
        b.unrealized_gain_loss + b.realized_gain_loss +
          b.total_dividends_received) ∧
    exampleManagedBalance.total_return = 140 ∧
    exampleManagedBalance.total_return_percentage = 14 := by
  refine ⟨fun b => rfl, ?_, ?_⟩ <;>
    norm_num [exampleManagedBalance, ManagedFundBalance.total_return,
      ManagedFundBalance.total_return_percentage]

/-- C5: `total_contributions` is the exact decimal sum of the employee,
employer and voluntary contribution totals, with no other component; on
the spec's example (500, 600, 100) it is 1200.00. -/
theorem total_contributions_spec :
    (∀ b : RSABalance,
      b.total_contributions =
        b.total_employee_contributions + b.total_employer_contributions +
          b.total_voluntary_contributions) ∧
    exampleRSABalance.total_contributions = 1200 := by
  refine ⟨fun b => rfl, ?_⟩
  norm_num [exampleRSABalance, RSABalance.total_contributions]

/-- C6: for the balance and performance tables, at most one row may exist
per uniqueness key — (fund, date) for balances, and additionally
(period type, period start, period end) for performance — and an insert
that would create a second row with an existing key fails with
`DuplicateSnapshot`, leaving the table unchanged; a successful insert
appends the row and preserves the uniqueness invariant. -/
theorem snapshot_uniqueness_spec :
    dupInsertSpec RSABalance.key ∧ dupInsertSpec ManagedFundBalance.key ∧
      dupInsertSpec FundPerformance.key :=
  ⟨insertSnapshot_dupSpec RSABalance.key,
   insertSnapshot_dupSpec ManagedFundBalance.key,
   insertSnapshot_dupSpec FundPerformance.key⟩

/-- Witness for C6: inserting a second RSA balance row with the same
(fund, date) key fails with `DuplicateSnapshot`. -/
theorem snapshot_uniqueness_spec_witness :
    insertSnapshot RSABalance.key [rsaRowA] rsaRowB =
      Except.error InsertError.DuplicateSnapshot :=
  ((snapshot_uniqueness_spec.1 [rsaRowA] rsaRowB).1).mpr ⟨rsaRowA, by simp, rfl⟩

/-- C7: the profile-completion score is monotonic: filling any one
currently-empty scored field (leaving the rest as they are) never
decreases the score. -/
theorem profile_completion_monotone (u v : User) (i : Nat)
    (hu : (profile_field_values u)[i]? = some false)
    (hv : profile_field_values v = (profile_field_values u).set i true) :
    calculate_profile_completion u ≤ calculate_profile_completion v := by
  have hcount : filled_fields v = filled_fields u + 1 := by
    rw [filled_fields, hv, count_true_set _ _ hu]
    rfl
  have h7u : total_fields u = 7 := rfl
  have h7v : total_fields v = 7 := rfl
  rw [calculate_profile_completion, calculate_profile_completion, h7u, h7v,
    hcount]
  apply round2_mono
  push_cast
  linarith

/-- Witness for C7: filling the first-name field of an empty profile does
not decrease the score. -/
theorem profile_completion_monotone_witness :
    calculate_profile_completion emptyProfileUser ≤
      calculate_profile_completion oneFieldUser :=
  profile_completion_monotone emptyProfileUser oneFieldUser 0 (by decide) (by decide)

/-- C8: the upload-job status takes only the four declared values; every
new `FundDataUpload` job starts as pending; and the only permitted
transitions are pending → processing and processing → completed or
failed — one-directional, with no transition out of a terminal state and
no retry-in-place transition. -/
theorem upload_status_machine :
    (∀ s : UploadStatus, s ∈ STATUS_CHOICES) ∧
    (∀ (user : Nat) (ut : UploadType) (fname : String),
      (newFundDataUpload user ut fname).status = UploadStatus.pending) ∧
    (∀ s t : UploadStatus, allowedTransition s t = true ↔
      (s = UploadStatus.pending ∧ t = UploadStatus.processing) ∨
      (s = UploadStatus.processing ∧
        (t = UploadStatus.completed ∨ t = UploadStatus.failed))) ∧
    (∀ t : UploadStatus, allowedTransition UploadStatus.completed t = false ∧
      allowedTransition UploadStatus.failed t = false) ∧
    (∀ s t : UploadStatus, allowedTransition s t = true →
      allowedTransition t s = false) ∧
    (∀ s : UploadStatus, allowedTransition s s = false) := by
  refine ⟨fun s => ?_, fun _ _ _ => rfl, fun s t => ?_, fun t => ?_,
    fun s t h => ?_, fun s => ?_⟩
  · cases s <;> simp [STATUS_CHOICES]
  · cases s <;> cases t <;> simp [allowedTransition]
  · cases t <;> exact ⟨rfl, rfl⟩
  · cases s <;> cases t <;> simp_all [allowedTransition]
  · cases s <;> rfl

/-- Witness for C8: pending → processing is allowed, and the reverse
transition is not. -/
theorem upload_status_machine_witness :
    allowedTransition UploadStatus.processing UploadStatus.pending = false :=
  upload_status_machine.2.2.2.2.1 UploadStatus.pending UploadStatus.processing rfl

/-- C9: the full-name derivation returns the first and last name joined by
a single space with surrounding whitespace stripped; when both name parts
are empty it falls back to the username; it never returns an empty string
for an account with a non-empty username. -/
theorem get_full_name_spec (u : User) :
    (pyStrip (u.first_name ++ " " ++ u.last_name) ≠ "" →
      get_full_name u = pyStrip (u.first_name ++ " " ++ u.last_name)) ∧
    (u.first_name = "" → u.last_name = "" → get_full_name u = u.username) ∧
    (u.username ≠ "" → get_full_name u ≠ "") := by
  refine ⟨fun h => by simp [get_full_name, h], fun h1 h2 => ?_, fun h => ?_⟩
  · have hs : pyStrip " " = "" := by decide
    simp [get_full_name, h1, h2, hs]
  · unfold get_full_name
    by_cases hc : pyStrip (u.first_name ++ " " ++ u.last_name) = "" <;>
      simp [hc, h]

/-- Witness for C9: a user named Ada Lovelace gets the stripped joined
name, and a user with empty name parts gets their username. -/
theorem get_full_name_spec_witness :
    get_full_name adaUser = pyStrip ("Ada" ++ " " ++ "Lovelace") ∧
    get_full_name noNameUser = "edith2" :=
  ⟨(get_full_name_spec adaUser).1 (by decide),
   (get_full_name_spec noNameUser).2.1 rfl rfl⟩

/-- C10: `total_return_percentage` is not clamped to [0, 100]: a snapshot
with positive invested capital and losses exceeding dividends yields a
strictly negative percentage, and another snapshot yields a percentage
above 100. -/
theorem total_return_percentage_unclamped :
    lossBalance.total_invested > 0 ∧
    lossBalance.total_return_percentage < 0 ∧
    gainBalance.total_invested > 0 ∧
    gainBalance.total_return_percentage > 100 := by
  norm_num [lossBalance, gainBalance, ManagedFundBalance.total_return,
    ManagedFundBalance.total_return_percentage]

end ZynBudget
